import Mathlib

/-!
Shallow embedding of `src/BarcodeApp.py` (a Streamlit barcode label printing
app) together with proofs about its print pipeline, history ledger, printer
dispatch, configuration loading and printer enumeration.

External collaborators (the barcode rasterizer, the Windows GDI printer
driver, `lpstat`, the filesystem) are modelled as explicit parameters or
outcome values at the call boundary; everything the Python source itself
computes is translated directly.
-/

namespace BarcodeApp

/-! ### Python string primitives

`String.trim`, `String.splitOn` and string comparison from the Lean library
are not kernel-reducible, so the Python string operations used by the source
are modelled directly over the character list of a string.
-/

/-- Characters of Python `str.strip()`: drop whitespace from both ends. -/
def pyStripChars (l : List Char) : List Char :=
  ((l.dropWhile Char.isWhitespace).reverse.dropWhile Char.isWhitespace).reverse

/-- Python `str.strip()` with no argument: strip surrounding whitespace. -/
def pyStrip (s : String) : String :=
  String.mk (pyStripChars s.data)

/-- Python string comparison `s < t`: lexicographic on code points. -/
def pyStrLtChars : List Char → List Char → Bool
  | [], [] => false
  | [], _ :: _ => true
  | _ :: _, [] => false
  | a :: as, b :: bs => if a < b then true else if b < a then false else pyStrLtChars as bs

/-- Python string comparison `s < t` on `String`. -/
def pyStrLt (s t : String) : Bool :=
  pyStrLtChars s.data t.data

/-! ### The history ledger file

`print_history.csv` is modelled as `none` (the file does not exist) or
`some lines`.  A line is either the header row `barcode, date time printed`
or one record row `(value, timestamp)`.
-/

/-- One line of `print_history.csv`. -/
inductive LedgerLine where
  | header
  | record (value : String) (time : String)
deriving DecidableEq

/-- The ledger file on disk: `none` while the file does not exist. -/
abbrev LedgerFile := Option (List LedgerLine)

/-- `log_print_history` (`BarcodeApp.py` lines 162-179) with the logged value
and the formatted timestamp made explicit: probe the file for existence
(`FileNotFoundError` on open-for-read means it is absent), then open in
append mode, writing the header first only when the file was absent, and
always appending one record row. -/
def log_print_history (value time : String) : LedgerFile → LedgerFile
  | none => some [LedgerLine.header, LedgerLine.record value time]
  | some l => some (l ++ [LedgerLine.record value time])

/-- The Clear Print History button handler (lines 287-291): open with mode
`"w"` (truncating, creating if absent) and write exactly the header row. -/
def clear_history : LedgerFile → LedgerFile :=
  fun _ => some [LedgerLine.header]

/-- The ensure-ledger-exists block (lines 294-297): when the file does not
exist, create it with exactly the header row; otherwise leave it alone. -/
def ensure_history_exists : LedgerFile → LedgerFile
  | none => some [LedgerLine.header]
  | some l => some l

/-- The ledger operations exposed by the app. -/
inductive LedgerOp where
  | ensureInit
  | append (value time : String)
  | clear

/-- Run one ledger operation against the file. -/
def runLedgerOp (f : LedgerFile) : LedgerOp → LedgerFile
  | LedgerOp.ensureInit => ensure_history_exists f
  | LedgerOp.append v t => log_print_history v t f
  | LedgerOp.clear => clear_history f

/-- Run a sequence of ledger operations, first to last. -/
def runLedgerOps (f : LedgerFile) (ops : List LedgerOp) : LedgerFile :=
  ops.foldl runLedgerOp f

/-- First line of the ledger file, if the file exists and is non-empty. -/
def firstLine (f : LedgerFile) : Option LedgerLine :=
  f.bind List.head?

/-- Number of header rows in the ledger file (0 when the file is absent). -/
def headerCount (f : LedgerFile) : Nat :=
  (f.getD []).count LedgerLine.header

/-- Whether the ledger file exists on disk. -/
def ledgerExists (f : LedgerFile) : Bool :=
  f.isSome

/-- The header-once invariant: the file exists, its first line is the header,
and the header occurs exactly once. -/
def goodLedger (f : LedgerFile) : Prop :=
  ∃ l, f = some l ∧ l.head? = some LedgerLine.header ∧ l.count LedgerLine.header = 1

theorem goodLedger_runLedgerOp_none (op : LedgerOp) : goodLedger (runLedgerOp none op) := by
  cases op with
  | ensureInit => exact ⟨[LedgerLine.header], rfl, rfl, by simp⟩
  | append v t =>
      exact ⟨[LedgerLine.header, LedgerLine.record v t], rfl, rfl, by
        simp [List.count_cons]⟩
  | clear => exact ⟨[LedgerLine.header], rfl, rfl, by simp⟩

theorem goodLedger_runLedgerOp (op : LedgerOp) (f : LedgerFile) (h : goodLedger f) :
    goodLedger (runLedgerOp f op) := by
  obtain ⟨l, rfl, hhead, hcount⟩ := h
  cases op with
  | ensureInit => exact ⟨l, rfl, hhead, hcount⟩
  | append v t =>
      refine ⟨l ++ [LedgerLine.record v t], rfl, ?_, ?_⟩
      · cases l with
        | nil => simp at hhead
        | cons a as => simpa using hhead
      · rw [List.count_append, hcount]
        simp [List.count_cons]
  | clear => exact ⟨[LedgerLine.header], rfl, rfl, by simp⟩

theorem goodLedger_runLedgerOps (ops : List LedgerOp) (f : LedgerFile) (h : goodLedger f) :
    goodLedger (runLedgerOps f ops) := by
  induction ops generalizing f with
  | nil => exact h
  | cons op rest ih => exact ih (runLedgerOp f op) (goodLedger_runLedgerOp op f h)

/-- C2: any non-empty sequence of ensure-initialized, append and clear
operations, run from a nonexistent ledger file, yields a file whose first
line is the header row and in which the header occurs exactly once. -/
theorem c2_header_first_and_once (ops : List LedgerOp) (h : ops ≠ []) :
    ledgerExists (runLedgerOps none ops) = true ∧
    firstLine (runLedgerOps none ops) = some LedgerLine.header ∧
    headerCount (runLedgerOps none ops) = 1 := by
  obtain ⟨op, rest, rfl⟩ : ∃ op rest, ops = op :: rest := by
    cases ops with
    | nil => exact absurd rfl h
    | cons op rest => exact ⟨op, rest, rfl⟩
  have hg : goodLedger (runLedgerOps none (op :: rest)) := by
    have h1 : goodLedger (runLedgerOp none op) := goodLedger_runLedgerOp_none op
    simpa [runLedgerOps] using goodLedger_runLedgerOps rest (runLedgerOp none op) h1
  obtain ⟨l, hl, hhead, hcount⟩ := hg
  refine ⟨?_, ?_, ?_⟩
  · simp [ledgerExists, hl]
  · simp [firstLine, hl, hhead]
  · simp [headerCount, hl, hcount]

/-- Witness for `c2_header_first_and_once` at the one-element sequence
`[ensureInit]`. -/
theorem c2_header_first_and_once_witness :
    ([LedgerOp.ensureInit] ≠ ([] : List LedgerOp)) ∧
    (ledgerExists (runLedgerOps none [LedgerOp.ensureInit]) = true ∧
      firstLine (runLedgerOps none [LedgerOp.ensureInit]) = some LedgerLine.header ∧
      headerCount (runLedgerOps none [LedgerOp.ensureInit]) = 1) :=
  ⟨by simp, c2_header_first_and_once [LedgerOp.ensureInit] (by simp)⟩

/-! ### The auto-print gate (C8) -/

/-- The auto-print gate (lines 258-265).  Given the stored
`st.session_state.previous_barcode` and the current text-input value, return
whether `auto_print` fires together with the new stored value: it fires when
the input is non-empty, differs from the stored value, and is non-empty
after stripping; only then is the stored value updated to the input. -/
def auto_print_gate (previous_barcode input_barcode : String) : Bool × String :=
  if input_barcode ≠ "" ∧ input_barcode ≠ previous_barcode ∧ pyStrip input_barcode ≠ "" then
    (true, input_barcode)
  else
    (false, previous_barcode)

/-- Whether any of `k` further reruns that observe the same unchanged input
value fires the auto-print gate again. -/
def anyRetrigger (previous input : String) : Nat → Bool
  | 0 => false
  | Nat.succ k =>
      (auto_print_gate previous input).1 ||
        anyRetrigger (auto_print_gate previous input).2 input k

theorem auto_print_gate_same (s : String) : auto_print_gate s s = (false, s) := by
  simp [auto_print_gate]

theorem anyRetrigger_same (s : String) (k : Nat) : anyRetrigger s s k = false := by
  induction k with
  | zero => rfl
  | succ k ih => simp [anyRetrigger, auto_print_gate_same, ih]

/-- C8: the auto-print gate fires only for a value that is non-empty after
stripping and differs from the previously observed submitted value, and once
it has fired, any number of further observations of the same unchanged value
never fire it again. -/
theorem c8_auto_submit_once_per_change (prev input : String) (k : Nat)
    (h : (auto_print_gate prev input).1 = true) :
    pyStrip input ≠ "" ∧ input ≠ prev ∧
    anyRetrigger (auto_print_gate prev input).2 input k = false := by
  by_cases hc : input ≠ "" ∧ input ≠ prev ∧ pyStrip input ≠ ""
  · obtain ⟨h1, h2, h3⟩ := hc
    have hsnd : (auto_print_gate prev input).2 = input := by
      simp [auto_print_gate, h1, h2, h3]
    exact ⟨h3, h2, by rw [hsnd]; exact anyRetrigger_same input k⟩
  · exact absurd h (by simp [auto_print_gate, hc])

/-- Witness for `c8_auto_submit_once_per_change`: previous value `""`,
input `"A"`, three further reruns. -/
theorem c8_auto_submit_once_per_change_witness :
    (auto_print_gate "" "A").1 = true ∧
    (pyStrip "A" ≠ "" ∧ "A" ≠ "" ∧
      anyRetrigger (auto_print_gate "" "A").2 "A" 3 = false) :=
  ⟨by decide, c8_auto_submit_once_per_change "" "A" 3 (by decide)⟩

/-! ### Label composition (`generate_barcode`, lines 87-117)

The barcode rasterizer (`python-barcode` + PIL) is an external collaborator:
it is passed in as a function from the input string to either the pixel
dimensions of the rasterized barcode or the message of the exception it
raises.  Everything after the raster is obtained is computed by the source:
a 600x300 white canvas with the raster pasted at centred offsets computed
with Python floor division `//`.
-/

/-- The composed label image: fixed canvas size, paste offsets of the
barcode raster, and background colour. -/
structure ComposedImage where
  width : Nat
  height : Nat
  pasteX : Int
  pasteY : Int
  background : Nat
deriving DecidableEq

/-- The failure modes of `generate_barcode`: the barcode libraries are not
installed, or rasterization raised (both reported via `st.error`, returning
`None`). -/
inductive GenFailure where
  | librariesMissing
  | rasterFailed (msg : String)
deriving DecidableEq

/-- `generate_barcode` (lines 87-117): fail when the barcode libraries are
unavailable; otherwise rasterize the input, and on success build a 600x300
white label with the raster pasted at `(600 - w) // 2, (300 - h) // 2`
(Python `//` is floor division, modelled by `Int.fdiv`). -/
def generate_barcode (barcode_available : Bool)
    (rasterize : String → Except String (Nat × Nat)) (barcode_data : String) :
    Except GenFailure ComposedImage :=
  if barcode_available = false then Except.error GenFailure.librariesMissing
  else
    match rasterize barcode_data with
    | Except.error msg => Except.error (GenFailure.rasterFailed msg)
    | Except.ok (w, h) =>
        Except.ok
          { width := 600, height := 300
            pasteX := Int.fdiv (600 - (w : Int)) 2
            pasteY := Int.fdiv (300 - (h : Int)) 2
            background := 0xFFFFFF }

/-- C6 (amended): for every input, `generate_barcode` either fails with a
generation error or returns an image of exactly 600x300 on a white
background with the raster pasted at floor-division centred offsets; it
never produces anything else. -/
theorem c6_label_composition_shape (barcode_available : Bool)
    (rasterize : String → Except String (Nat × Nat)) (v : String) :
    (∃ e, generate_barcode barcode_available rasterize v = Except.error e) ∨
    (∃ w h, rasterize v = Except.ok (w, h) ∧
      generate_barcode barcode_available rasterize v =
        Except.ok
          { width := 600, height := 300
            pasteX := Int.fdiv (600 - (w : Int)) 2
            pasteY := Int.fdiv (300 - (h : Int)) 2
            background := 0xFFFFFF }) := by
  cases barcode_available with
  | false => exact Or.inl ⟨GenFailure.librariesMissing, rfl⟩
  | true =>
      cases hr : rasterize v with
      | error m =>
          exact Or.inl ⟨GenFailure.rasterFailed m, by simp [generate_barcode, hr]⟩
      | ok p =>
          obtain ⟨w, h⟩ := p
          exact Or.inr ⟨w, h, rfl, by simp [generate_barcode, hr]⟩

/-- C6 counterexample: for a raster 601 pixels wide, the code's paste offset
is `(600 - 601) // 2 = -1` (floor division), while integer-truncating
division gives `0`; so the offsets are not computed by truncating
division. -/
theorem c6_offsets_floor_not_truncating :
    generate_barcode true (fun _ => Except.ok (601, 100)) "X" =
      Except.ok
        { width := 600, height := 300, pasteX := -1, pasteY := 100,
          background := 0xFFFFFF } ∧
    Int.tdiv (600 - 601) 2 = 0 ∧ ((-1 : Int) ≠ 0) := by
  refine ⟨?_, by decide, by decide⟩
  rfl

/-! ### The print pipeline state (C1)

`log_print_history` does not take the printed value as an argument: it reads
the module-level global `input_barcode` (line 167).  `AppState` carries that
global together with the ledger file.
-/

/-- The mutable state the pipeline touches: the global `input_barcode` bound
to the text-input widget, and the ledger file. -/
structure AppState where
  input_barcode : String
  ledger : LedgerFile

/-- `print_barcode_image` on Windows followed by its history logging (lines
144-156): when the dispatch succeeds, `log_print_history()` appends a record
whose value is the global `input_barcode` — not the value rendered in the
image that was just printed; when the dispatch raises, nothing is logged. -/
def print_and_log (dispatchOk : Bool) (now : String) (s : AppState) : AppState :=
  if dispatchOk then
    { s with ledger := log_print_history s.input_barcode now s.ledger }
  else s

/-- The Reprint Selected button loop (lines 330-334): for each selected
barcode in order, skip values that are empty or strip to empty, regenerate
the barcode, and print (logging on success) when generation succeeded. -/
def reprintSelected (barcode_available : Bool)
    (rasterize : String → Except String (Nat × Nat))
    (dispatchOk : String → Bool) (now : String)
    (selected : List String) (s : AppState) : AppState :=
  selected.foldl
    (fun st b =>
      if b ≠ "" ∧ pyStrip b ≠ "" then
        match generate_barcode barcode_available rasterize b with
        | Except.ok _ => print_and_log (dispatchOk b) now st
        | Except.error _ => st
      else st) s

/-- The auto-print execution block (lines 276-283): when the gate fired,
regenerate the barcode from the current input and print it; a successful
dispatch appends to the ledger. -/
def auto_print_submit (barcode_available : Bool)
    (rasterize : String → Except String (Nat × Nat))
    (dispatchOk : Bool) (now : String) (s : AppState) : AppState :=
  if s.input_barcode ≠ "" ∧ pyStrip s.input_barcode ≠ "" then
    match generate_barcode barcode_available rasterize s.input_barcode with
    | Except.ok _ => print_and_log dispatchOk now s
    | Except.error _ => s
  else s

/-- C1 failing input: reprinting the selected value `"A"` while the text
input holds `""` appends the record `("", now)` — the value logged is the
global text-input value, not the value that was reprinted. -/
theorem c1_reprint_logs_global_input :
    (reprintSelected true (fun _ => Except.ok (200, 100)) (fun _ => true)
        "06/01/2025 10:00:00 AM" ["A"]
        { input_barcode := "", ledger := some [LedgerLine.header] }).ledger =
      some [LedgerLine.header,
            LedgerLine.record "" "06/01/2025 10:00:00 AM"] ∧
    ("" : String) ≠ "A" := by
  refine ⟨?_, by decide⟩
  rfl

/-! ### The printer dispatcher (`print_barcode_image`, lines 120-158)

The Windows GDI driver is an external collaborator; the dispatcher is
modelled as the trace of driver calls it performs together with its
outcome.  `failAt = some i` means the i-th driver call (0-based) raises an
exception; the `except Exception` handler at line 157 then reports the
failure and returns without performing any further call.
-/

/-- The driver calls `print_barcode_image` can make, in source order. -/
inductive DriverCall where
  | createDC
  | createPrinterDC
  | getDeviceCaps
  | startDoc
  | startPage
  | draw
  | endPage
  | endDoc
  | deleteDC
deriving DecidableEq

/-- The driver-call sequence of the exception-free path (lines 134-152). -/
def printDriverSeq : List DriverCall :=
  [DriverCall.createDC, DriverCall.createPrinterDC, DriverCall.getDeviceCaps,
   DriverCall.getDeviceCaps, DriverCall.startDoc, DriverCall.startPage,
   DriverCall.draw, DriverCall.endPage, DriverCall.endDoc,
   DriverCall.deleteDC]

/-- Outcome of `print_barcode_image` as surfaced to the user. -/
inductive PrintOutcome where
  | success
  | unsupportedPlatform
  | driverFailure
deriving DecidableEq

/-- `print_barcode_image` (lines 120-158) as (driver calls performed,
outcome): on a platform other than `win32` it reports that printing is
unsupported and returns before any driver access; otherwise it performs the
call sequence until the first raising call, if any. -/
def print_barcode_image_trace (platform : String) (failAt : Option Nat) :
    List DriverCall × PrintOutcome :=
  if platform ≠ "win32" then ([], PrintOutcome.unsupportedPlatform)
  else
    match failAt with
    | none => (printDriverSeq, PrintOutcome.success)
    | some i => (printDriverSeq.take (i + 1), PrintOutcome.driverFailure)

/-- C9: on any platform other than `win32`, the dispatcher fails with the
unsupported-platform outcome having performed zero driver calls. -/
theorem c9_unsupported_platform_no_driver_calls (platform : String)
    (failAt : Option Nat) (h : platform ≠ "win32") :
    print_barcode_image_trace platform failAt =
      ([], PrintOutcome.unsupportedPlatform) := by
  simp [print_barcode_image_trace, h]

/-- Witness for `c9_unsupported_platform_no_driver_calls` on `"linux"`. -/
theorem c9_unsupported_platform_no_driver_calls_witness :
    ("linux" ≠ "win32") ∧
    print_barcode_image_trace "linux" none =
      ([], PrintOutcome.unsupportedPlatform) :=
  ⟨by decide, c9_unsupported_platform_no_driver_calls "linux" none (by decide)⟩

/-- C5 failing input: when the draw call (index 6) raises after the print
job and page have been started, the dispatcher returns the failure without
ever calling EndPage, EndDoc or DeleteDC — the device context acquired by
the CreateDC call is never released. -/
theorem c5_device_context_leak_on_draw_failure :
    (print_barcode_image_trace "win32" (some 6)).2 = PrintOutcome.driverFailure ∧
    DriverCall.createDC ∈ (print_barcode_image_trace "win32" (some 6)).1 ∧
    DriverCall.startDoc ∈ (print_barcode_image_trace "win32" (some 6)).1 ∧
    DriverCall.startPage ∈ (print_barcode_image_trace "win32" (some 6)).1 ∧
    DriverCall.endPage ∉ (print_barcode_image_trace "win32" (some 6)).1 ∧
    DriverCall.endDoc ∉ (print_barcode_image_trace "win32" (some 6)).1 ∧
    DriverCall.deleteDC ∉ (print_barcode_image_trace "win32" (some 6)).1 := by
  decide

/-! ### The history display sort (line 300, C3)

`df = df.sort_values(by="date time printed", ascending=False)` orders the
rows of the history dataframe by descending comparison of the timestamp
column, whose entries pandas holds as strings — so the comparison is
Python string comparison, not a date comparison.
-/

/-- Insert one `(barcode, timestamp)` row into a list already sorted
descending by the timestamp column, comparing timestamps as Python
strings. -/
def insertRowDesc (r : String × String) :
    List (String × String) → List (String × String)
  | [] => [r]
  | x :: xs =>
      if pyStrLt x.2 r.2 then r :: x :: xs else x :: insertRowDesc r xs

/-- `df.sort_values(by="date time printed", ascending=False)`: sort the
history rows by descending string comparison of the timestamp column. -/
def sort_values_desc (rows : List (String × String)) : List (String × String) :=
  rows.foldr insertRowDesc []

/-- Digit value of a character, if it is a digit. -/
def digitVal (c : Char) : Option Nat :=
  if '0' ≤ c ∧ c ≤ '9' then some (c.toNat - '0'.toNat) else none

/-- Parse a run of decimal digit characters. -/
def parseDigits (l : List Char) : Option Nat :=
  l.foldl
    (fun acc c =>
      match acc, digitVal c with
      | some n, some d => some (10 * n + d)
      | _, _ => none)
    (some 0)

/-- The true chronological value of a ledger timestamp, following the spec's
fixed format `MM/DD/YYYY hh:mm:ss AM/PM` (12-hour clock): parse the fields
and combine them into a single number that is larger exactly for later
instants.  This is the comparison the claim asks for, stated from the
spec's words; the code itself never parses the timestamp. -/
def specChronoKey (t : String) : Option Nat :=
  let cs := t.data
  match parseDigits (cs.take 2), parseDigits ((cs.drop 3).take 2),
      parseDigits ((cs.drop 6).take 4), parseDigits ((cs.drop 11).take 2),
      parseDigits ((cs.drop 14).take 2), parseDigits ((cs.drop 17).take 2) with
  | some mo, some d, some y, some h12, some mi, some se =>
      let mer := cs.drop 20
      if mer = ['A', 'M'] then
        some (((((y * 13 + mo) * 32 + d) * 24 +
          (if h12 = 12 then 0 else h12)) * 60 + mi) * 60 + se)
      else if mer = ['P', 'M'] then
        some (((((y * 13 + mo) * 32 + d) * 24 +
          (if h12 = 12 then 12 else h12 + 12)) * 60 + mi) * 60 + se)
      else none
  | _, _, _, _, _, _ => none

/-- C3 failing input: a record stamped one second before midnight on
12/31/2024 and a record stamped at midnight on 01/01/2025.  The second is
chronologically later, yet the code's descending string sort places the
12/31/2024 record first, because `"12..." > "01..."` lexically. -/
theorem c3_sort_is_lexical_not_chronological :
    sort_values_desc
        [("A", "12/31/2024 11:59:59 PM"), ("B", "01/01/2025 12:00:00 AM")] =
      [("A", "12/31/2024 11:59:59 PM"), ("B", "01/01/2025 12:00:00 AM")] ∧
    (specChronoKey "12/31/2024 11:59:59 PM").isSome = true ∧
    (specChronoKey "01/01/2025 12:00:00 AM").isSome = true ∧
    (specChronoKey "12/31/2024 11:59:59 PM").getD 0 <
      (specChronoKey "01/01/2025 12:00:00 AM").getD 0 := by
  decide

/-! ### Printer enumeration (`get_printer_names`, lines 63-84, C10) -/

/-- Outcome of the Windows enumeration collaborator: the display names
returned by `win32print.EnumPrinters` (the code projects `printer[2]` out of
each tuple), or `ImportError` because `win32print` is not installed. -/
inductive EnumOutcome where
  | ok (names : List String)
  | importError

/-- Outcome of running `lpstat -e` on a non-Windows platform: its stdout, or
any exception (missing binary, non-zero exit, ...). -/
inductive LpstatOutcome where
  | ok (output : String)
  | fail

/-- Characters of the lines of a string, split on newline. -/
def splitLinesChars : List Char → List (List Char)
  | [] => [[]]
  | c :: rest =>
      match splitLinesChars rest with
      | [] => [[]]
      | line :: more =>
          if c = '\n' then [] :: line :: more else (c :: line) :: more

/-- Python `str.splitlines()` for newline-separated text: the pieces between
newlines, with no trailing empty piece after a final newline. -/
def pySplitlines (s : String) : List String :=
  let pieces := (splitLinesChars s.data).map String.mk
  match pieces.getLast? with
  | some "" => pieces.dropLast
  | _ => pieces

/-- `get_printer_names` (lines 63-84): on `win32`, return the enumerated
printer names, or a one-element sentinel when `win32print` is not
installed; elsewhere, return the stripped non-empty lines of `lpstat -e`
output, or a one-element sentinel when running `lpstat` fails. -/
def get_printer_names (platform : String) (enum : EnumOutcome)
    (lpstat : LpstatOutcome) : List String :=
  if platform = "win32" then
    match enum with
    | EnumOutcome.ok names => names
    | EnumOutcome.importError => ["win32print module not installed"]
  else
    match lpstat with
    | LpstatOutcome.ok output =>
        ((pySplitlines output).map pyStrip).filter (fun l => l ≠ "")
    | LpstatOutcome.fail => ["Printer listing not supported on this OS"]

/-- C10 counterexample: on Windows with `win32print` importable but zero
printers configured, `EnumPrinters` returns an empty enumeration and
`get_printer_names` returns the empty list — not a list with at least one
element. -/
theorem c10_empty_enumeration_returns_empty_list :
    get_printer_names "win32" (EnumOutcome.ok []) LpstatOutcome.fail = [] ∧
    ¬ 1 ≤ (get_printer_names "win32" (EnumOutcome.ok [])
            LpstatOutcome.fail).length := by
  decide

/-- C10 (amended): each handled enumeration failure yields the one-element
sentinel list for its platform, and each successful enumeration yields
exactly the enumerated (resp. parsed) names, which may be an empty list. -/
theorem c10_enumeration_failure_sentinels (platform : String)
    (enum : EnumOutcome) (lpstat : LpstatOutcome) (names : List String)
    (output : String) (h : platform ≠ "win32") :
    get_printer_names "win32" EnumOutcome.importError lpstat =
      ["win32print module not installed"] ∧
    get_printer_names platform enum LpstatOutcome.fail =
      ["Printer listing not supported on this OS"] ∧
    get_printer_names "win32" (EnumOutcome.ok names) lpstat = names ∧
    get_printer_names platform enum (LpstatOutcome.ok output) =
      ((pySplitlines output).map pyStrip).filter (fun l => l ≠ "") := by
  cases enum <;> cases lpstat <;>
    simp [get_printer_names, h]

/-- Witness for `c10_enumeration_failure_sentinels` on `"linux"` with a
two-line `lpstat` output. -/
theorem c10_enumeration_failure_sentinels_witness :
    ("linux" ≠ "win32") ∧
    (get_printer_names "win32" EnumOutcome.importError LpstatOutcome.fail =
      ["win32print module not installed"] ∧
    get_printer_names "linux" (EnumOutcome.ok ["HP1"]) LpstatOutcome.fail =
      ["Printer listing not supported on this OS"] ∧
    get_printer_names "win32" (EnumOutcome.ok ["HP1"]) LpstatOutcome.fail =
      ["HP1"] ∧
    get_printer_names "linux" (EnumOutcome.ok ["HP1"])
        (LpstatOutcome.ok "HP1\nHP2\n") =
      ((pySplitlines "HP1\nHP2\n").map pyStrip).filter (fun l => l ≠ "")) :=
  ⟨by decide,
    c10_enumeration_failure_sentinels "linux" (EnumOutcome.ok ["HP1"])
      LpstatOutcome.fail ["HP1"] "HP1\nHP2\n" (by decide)⟩

/-! ### The configuration store (`load_config`, lines 40-51, C4)

A JSON value, the possible states of `config.json`, and `load_config`.
The `try` block catches exactly `json.JSONDecodeError` and `OSError`; a file
whose bytes are not valid UTF-8 raises `UnicodeDecodeError`, and a file
holding valid JSON that is not an object makes `{**default_config,
**loaded_config}` raise `TypeError` — neither is caught.
-/

/-- A JSON value as produced by `json.load`. -/
inductive JVal where
  | jnull
  | jbool (b : Bool)
  | jnum (n : Int)
  | jstr (s : String)
  | jarr (elems : List JVal)
  | jobj (fields : List (String × JVal))

/-- Whether a JSON value is an object (a Python mapping). -/
def JVal.isObj : JVal → Bool
  | JVal.jobj _ => true
  | _ => false

/-- A Python exception escaping `load_config`. -/
inductive PyExc where
  | typeError
  | unicodeDecodeError
deriving DecidableEq

/-- The observable states of the backing `config.json` file. -/
inductive ConfigFileState where
  | absent
  | osError
  | malformedJson
  | badEncoding
  | parsed (v : JVal)

/-- The in-code default configuration document (line 42). -/
def default_config : List (String × JVal) :=
  [("last_printer", JVal.jnull), ("auto_print_enabled", JVal.jbool true)]

/-- Python dict merge `{**d, **l}` on JSON objects as ordered key-value
lists (keys of `d` distinct): `d`'s keys in order, each taking `l`'s value
when `l` has the key, followed by `l`'s keys not in `d`, in order. -/
def dictMerge (d l : List (String × JVal)) : List (String × JVal) :=
  d.map (fun kv => (kv.1, (l.lookup kv.1).getD kv.2)) ++
    l.filter (fun kv => (d.lookup kv.1).isNone)

/-- First option when present, second otherwise. -/
def jsonOr (a b : Option JVal) : Option JVal :=
  match a with
  | some v => some v
  | none => b

/-- `load_config` (lines 40-51): a missing file, an `OSError` while opening
or reading, and malformed JSON all fall back to the default document; a
valid JSON object is merged over the defaults with `{**default_config,
**loaded_config}`; valid JSON that is not an object raises `TypeError`
(not caught), and non-UTF-8 content raises `UnicodeDecodeError` (not
caught). -/
def load_config : ConfigFileState → Except PyExc (List (String × JVal))
  | ConfigFileState.absent => Except.ok default_config
  | ConfigFileState.osError => Except.ok default_config
  | ConfigFileState.malformedJson => Except.ok default_config
  | ConfigFileState.badEncoding => Except.error PyExc.unicodeDecodeError
  | ConfigFileState.parsed (JVal.jobj fields) =>
      Except.ok (dictMerge default_config fields)
  | ConfigFileState.parsed _ => Except.error PyExc.typeError

theorem lookup_filter_keep (k : String) (p : String × JVal → Bool)
    (l : List (String × JVal)) (hp : ∀ v, p (k, v) = true) :
    (l.filter p).lookup k = l.lookup k := by
  induction l with
  | nil => rfl
  | cons x xs ih =>
      obtain ⟨k', v'⟩ := x
      by_cases hk : k = k'
      · subst hk
        simp [List.filter_cons, hp v', List.lookup_cons]
      · have hbeq : (k == k') = false := by
          simp [hk]
        cases hpv : p (k', v') with
        | true => simp [List.filter_cons, hpv, List.lookup_cons, hbeq, ih]
        | false => simp [List.filter_cons, hpv, List.lookup_cons, hbeq, ih]

theorem dictMerge_default_lookup (fields : List (String × JVal)) (k : String) :
    (dictMerge default_config fields).lookup k =
      jsonOr (fields.lookup k) (default_config.lookup k) := by
  by_cases h1 : k = "last_printer"
  · subst h1
    simp only [dictMerge, default_config, List.map, List.lookup_cons]
    cases hfk : List.lookup "last_printer" fields <;>
      simp [jsonOr, hfk, List.lookup_cons]
  · by_cases h2 : k = "auto_print_enabled"
    · subst h2
      simp only [dictMerge, default_config, List.map, List.lookup_cons]
      have hb : (("auto_print_enabled" : String) == "last_printer") = false := by
        decide
      cases hfk : List.lookup "auto_print_enabled" fields <;>
        simp [jsonOr, hfk, List.lookup_cons, hb]
    · have hb1 : (k == "last_printer") = false := by
        simp [h1]
      have hb2 : (k == "auto_print_enabled") = false := by
        simp [h2]
      have hdef : default_config.lookup k = none := by
        simp [default_config, List.lookup_cons, hb1, hb2]
      have hkeep :
          (fields.filter
              (fun kv => (default_config.lookup kv.1).isNone)).lookup k =
            fields.lookup k :=
        lookup_filter_keep k _ fields (fun v => by simp [hdef])
      have hmerge :
          (dictMerge default_config fields).lookup k =
            (fields.filter
                (fun kv => (default_config.lookup kv.1).isNone)).lookup k := by
        show (([("last_printer", (fields.lookup "last_printer").getD JVal.jnull),
              ("auto_print_enabled",
                (fields.lookup "auto_print_enabled").getD (JVal.jbool true))] :
              List (String × JVal)) ++
            fields.filter
              (fun kv => (default_config.lookup kv.1).isNone)).lookup k =
          (fields.filter
              (fun kv => (default_config.lookup kv.1).isNone)).lookup k
        simp [List.cons_append, List.nil_append, List.lookup_cons, hb1, hb2]
      rw [hmerge, hkeep, hdef]
      cases hfk : fields.lookup k <;> simp [jsonOr, hfk]

/-- C4 counterexample: a config file holding `[]` — valid JSON, but not an
object — makes `load_config` raise `TypeError` instead of returning the
default document, and a persisted `"auto_print_enabled": null` overrides
the default `true` with `null` rather than counting as "use default". -/
theorem c4_load_raises_on_non_object :
    load_config (ConfigFileState.parsed (JVal.jarr [])) =
      Except.error PyExc.typeError ∧
    load_config (ConfigFileState.parsed (JVal.jarr [])) ≠
      Except.ok default_config ∧
    (dictMerge default_config
        [("auto_print_enabled", JVal.jnull)]).lookup "auto_print_enabled" =
      some JVal.jnull := by
  refine ⟨rfl, ?_, rfl⟩
  intro h
  exact Except.noConfusion h

/-- C4 (amended): an absent, unreadable or malformed-JSON config file loads
as the default document; a valid JSON object loads as the defaults overlaid
key-wise by every persisted key, persisted `null` values overriding the
default rather than being defaulted; valid non-object JSON raises
`TypeError`. -/
theorem c4_load_config_merge (fields : List (String × JVal)) (k : String)
    (v : JVal) (hv : v.isObj = false) :
    load_config ConfigFileState.absent = Except.ok default_config ∧
    load_config ConfigFileState.osError = Except.ok default_config ∧
    load_config ConfigFileState.malformedJson = Except.ok default_config ∧
    load_config (ConfigFileState.parsed (JVal.jobj fields)) =
      Except.ok (dictMerge default_config fields) ∧
    (dictMerge default_config fields).lookup k =
      jsonOr (fields.lookup k) (default_config.lookup k) ∧
    load_config (ConfigFileState.parsed v) = Except.error PyExc.typeError := by
  refine ⟨rfl, rfl, rfl, rfl, dictMerge_default_lookup fields k, ?_⟩
  cases v with
  | jobj fields' => simp [JVal.isObj] at hv
  | jnull => rfl
  | jbool b => rfl
  | jnum n => rfl
  | jstr s => rfl
  | jarr elems => rfl

/-- Witness for `c4_load_config_merge`: persisted `{"last_printer": "HP1"}`,
key `"auto_print_enabled"`, non-object value `[]`. -/
theorem c4_load_config_merge_witness :
    (JVal.jarr []).isObj = false ∧
    (load_config ConfigFileState.absent = Except.ok default_config ∧
    load_config ConfigFileState.osError = Except.ok default_config ∧
    load_config ConfigFileState.malformedJson = Except.ok default_config ∧
    load_config
        (ConfigFileState.parsed
          (JVal.jobj [("last_printer", JVal.jstr "HP1")])) =
      Except.ok (dictMerge default_config [("last_printer", JVal.jstr "HP1")]) ∧
    (dictMerge default_config
        [("last_printer", JVal.jstr "HP1")]).lookup "auto_print_enabled" =
      jsonOr (List.lookup "auto_print_enabled"
          [("last_printer", JVal.jstr "HP1")])
        (default_config.lookup "auto_print_enabled") ∧
    load_config (ConfigFileState.parsed (JVal.jarr [])) =
      Except.error PyExc.typeError) :=
  ⟨rfl,
    c4_load_config_merge [("last_printer", JVal.jstr "HP1")]
      "auto_print_enabled" (JVal.jarr []) rfl⟩

/-! ### Print scaling and centring (lines 136-149, C7)

The printable area is queried from the device; the scale, the resized
dimensions and the centring offsets are computed by the source.  Python
float arithmetic on these small integer ratios is modelled exactly by
rationals; `int(x)` truncates toward zero.
-/

/-- Python `int(x)` applied to a number: truncate toward zero. -/
def pyInt (q : ℚ) : ℤ :=
  q.num.tdiv q.den

/-- `scale = min(printable_area[0] / img_width, printable_area[1] /
img_height)` (line 140). -/
def print_scale (pw ph iw ih : ℕ) : ℚ :=
  min ((pw : ℚ) / (iw : ℚ)) ((ph : ℚ) / (ih : ℚ))

/-- `scaled_width = int(img_width * scale)` (line 141). -/
def scaled_width (pw ph iw ih : ℕ) : ℤ :=
  pyInt ((iw : ℚ) * print_scale pw ph iw ih)

/-- `scaled_height = int(img_height * scale)` (line 142). -/
def scaled_height (pw ph iw ih : ℕ) : ℤ :=
  pyInt ((ih : ℚ) * print_scale pw ph iw ih)

/-- `x = int((printable_area[0] - scaled_width) / 2)` (line 147). -/
def print_offset_x (pw ph iw ih : ℕ) : ℤ :=
  pyInt (((pw : ℚ) - ((scaled_width pw ph iw ih : ℤ) : ℚ)) / 2)

/-- `y = int((printable_area[1] - scaled_height) / 2)` (line 148). -/
def print_offset_y (pw ph iw ih : ℕ) : ℤ :=
  pyInt (((ph : ℚ) - ((scaled_height pw ph iw ih : ℤ) : ℚ)) / 2)

/-- The resized height the spec prescribes, stated from the spec's words:
`round(image_height * scale)`. -/
def specRoundScaledHeight (pw ph iw ih : ℕ) : ℤ :=
  round ((ih : ℚ) * print_scale pw ph iw ih)

theorem pyInt_eq_floor (q : ℚ) (h : 0 ≤ q) : pyInt q = ⌊q⌋ := by
  have hnum : 0 ≤ q.num := Rat.num_nonneg.mpr h
  have hden : 0 ≤ (q.den : ℤ) := Int.ofNat_nonneg q.den
  rw [pyInt, Rat.floor_def]
  exact Int.tdiv_eq_ediv hnum hden

theorem print_scale_nonneg (pw ph iw ih : ℕ) : 0 ≤ print_scale pw ph iw ih :=
  le_min (by positivity) (by positivity)

/-- C7 (amended): the dispatcher resizes to the floor (= truncation toward
zero of a nonnegative value) of `image_dim * scale`; both scaled dimensions
are nonnegative and fit within the printable bounds, and the image is
centred at the floor of half the leftover space on each axis, which is
nonnegative. -/
theorem c7_scale_fits_and_centres (pw ph iw ih : ℕ) (hiw : 0 < iw)
    (hih : 0 < ih) :
    scaled_width pw ph iw ih = ⌊(iw : ℚ) * print_scale pw ph iw ih⌋ ∧
    scaled_height pw ph iw ih = ⌊(ih : ℚ) * print_scale pw ph iw ih⌋ ∧
    0 ≤ scaled_width pw ph iw ih ∧
    0 ≤ scaled_height pw ph iw ih ∧
    scaled_width pw ph iw ih ≤ (pw : ℤ) ∧
    scaled_height pw ph iw ih ≤ (ph : ℤ) ∧
    print_offset_x pw ph iw ih =
      ⌊((pw : ℚ) - ((scaled_width pw ph iw ih : ℤ) : ℚ)) / 2⌋ ∧
    print_offset_y pw ph iw ih =
      ⌊((ph : ℚ) - ((scaled_height pw ph iw ih : ℤ) : ℚ)) / 2⌋ ∧
    0 ≤ print_offset_x pw ph iw ih ∧
    0 ≤ print_offset_y pw ph iw ih := by
  have hiwq : (0 : ℚ) < (iw : ℚ) := by exact_mod_cast hiw
  have hihq : (0 : ℚ) < (ih : ℚ) := by exact_mod_cast hih
  have hs0 : 0 ≤ print_scale pw ph iw ih := print_scale_nonneg pw ph iw ih
  have hqw : (0 : ℚ) ≤ (iw : ℚ) * print_scale pw ph iw ih :=
    mul_nonneg (le_of_lt hiwq) hs0
  have hqh : (0 : ℚ) ≤ (ih : ℚ) * print_scale pw ph iw ih :=
    mul_nonneg (le_of_lt hihq) hs0
  have hwf : scaled_width pw ph iw ih = ⌊(iw : ℚ) * print_scale pw ph iw ih⌋ :=
    pyInt_eq_floor _ hqw
  have hhf : scaled_height pw ph iw ih = ⌊(ih : ℚ) * print_scale pw ph iw ih⌋ :=
    pyInt_eq_floor _ hqh
  have hwb : (iw : ℚ) * print_scale pw ph iw ih ≤ (pw : ℚ) := by
    have h1 : print_scale pw ph iw ih ≤ (pw : ℚ) / (iw : ℚ) :=
      min_le_left _ _
    have h2 : (iw : ℚ) * print_scale pw ph iw ih ≤
        (iw : ℚ) * ((pw : ℚ) / (iw : ℚ)) :=
      mul_le_mul_of_nonneg_left h1 (le_of_lt hiwq)
    have h3 : (iw : ℚ) * ((pw : ℚ) / (iw : ℚ)) = (pw : ℚ) := by
      field_simp
    exact h3 ▸ h2
  have hhb : (ih : ℚ) * print_scale pw ph iw ih ≤ (ph : ℚ) := by
    have h1 : print_scale pw ph iw ih ≤ (ph : ℚ) / (ih : ℚ) :=
      min_le_right _ _
    have h2 : (ih : ℚ) * print_scale pw ph iw ih ≤
        (ih : ℚ) * ((ph : ℚ) / (ih : ℚ)) :=
      mul_le_mul_of_nonneg_left h1 (le_of_lt hihq)
    have h3 : (ih : ℚ) * ((ph : ℚ) / (ih : ℚ)) = (ph : ℚ) := by
      field_simp
    exact h3 ▸ h2
  have hw0 : 0 ≤ scaled_width pw ph iw ih := by
    rw [hwf]
    exact Int.le_floor.mpr (by exact_mod_cast hqw)
  have hh0 : 0 ≤ scaled_height pw ph iw ih := by
    rw [hhf]
    exact Int.le_floor.mpr (by exact_mod_cast hqh)
  have hwle : scaled_width pw ph iw ih ≤ (pw : ℤ) := by
    rw [hwf]
    have := Int.floor_le_floor hwb
    simpa using this
  have hhle : scaled_height pw ph iw ih ≤ (ph : ℤ) := by
    rw [hhf]
    have := Int.floor_le_floor hhb
    simpa using this
  have hox0q : (0 : ℚ) ≤ ((pw : ℚ) - ((scaled_width pw ph iw ih : ℤ) : ℚ)) / 2 := by
    have : ((scaled_width pw ph iw ih : ℤ) : ℚ) ≤ (pw : ℚ) := by
      exact_mod_cast hwle
    have hnum : (0 : ℚ) ≤ (pw : ℚ) - ((scaled_width pw ph iw ih : ℤ) : ℚ) := by
      linarith
    positivity
  have hoy0q : (0 : ℚ) ≤ ((ph : ℚ) - ((scaled_height pw ph iw ih : ℤ) : ℚ)) / 2 := by
    have : ((scaled_height pw ph iw ih : ℤ) : ℚ) ≤ (ph : ℚ) := by
      exact_mod_cast hhle
    have hnum : (0 : ℚ) ≤ (ph : ℚ) - ((scaled_height pw ph iw ih : ℤ) : ℚ) := by
      linarith
    positivity
  have hoxf : print_offset_x pw ph iw ih =
      ⌊((pw : ℚ) - ((scaled_width pw ph iw ih : ℤ) : ℚ)) / 2⌋ :=
    pyInt_eq_floor _ hox0q
  have hoyf : print_offset_y pw ph iw ih =
      ⌊((ph : ℚ) - ((scaled_height pw ph iw ih : ℤ) : ℚ)) / 2⌋ :=
    pyInt_eq_floor _ hoy0q
  refine ⟨hwf, hhf, hw0, hh0, hwle, hhle, hoxf, hoyf, ?_, ?_⟩
  · rw [hoxf]
    exact Int.le_floor.mpr (by exact_mod_cast hox0q)
  · rw [hoyf]
    exact Int.le_floor.mpr (by exact_mod_cast hoy0q)

/-- Witness for `c7_scale_fits_and_centres` at a 600x300 image and a
1000x800 printable area. -/
theorem c7_scale_fits_and_centres_witness :
    (0 < 600 ∧ 0 < 300) ∧
    (scaled_width 1000 800 600 300 = ⌊(600 : ℚ) * print_scale 1000 800 600 300⌋ ∧
    scaled_height 1000 800 600 300 = ⌊(300 : ℚ) * print_scale 1000 800 600 300⌋ ∧
    0 ≤ scaled_width 1000 800 600 300 ∧
    0 ≤ scaled_height 1000 800 600 300 ∧
    scaled_width 1000 800 600 300 ≤ (1000 : ℤ) ∧
    scaled_height 1000 800 600 300 ≤ (800 : ℤ) ∧
    print_offset_x 1000 800 600 300 =
      ⌊((1000 : ℚ) - ((scaled_width 1000 800 600 300 : ℤ) : ℚ)) / 2⌋ ∧
    print_offset_y 1000 800 600 300 =
      ⌊((800 : ℚ) - ((scaled_height 1000 800 600 300 : ℤ) : ℚ)) / 2⌋ ∧
    0 ≤ print_offset_x 1000 800 600 300 ∧
    0 ≤ print_offset_y 1000 800 600 300) :=
  ⟨⟨by norm_num, by norm_num⟩,
    c7_scale_fits_and_centres 1000 800 600 300 (by norm_num) (by norm_num)⟩

/-- C7 counterexample: for a 4x3 image on a 2x100 printable area the scale
is `1/2`; the code resizes the height to `int(3 * 0.5) = 1` (truncation),
while the claim's `round(3 * 0.5)` is `2`. -/
theorem c7_resize_truncates_not_rounds :
    scaled_height 2 100 4 3 = 1 ∧
    specRoundScaledHeight 2 100 4 3 = 2 ∧
    ((1 : ℤ) ≠ 2) := by
  have hs : print_scale 2 100 4 3 = 1 / 2 := by
    rw [print_scale, min_def]
    norm_num
  refine ⟨?_, ?_, by decide⟩
  · rw [scaled_height, hs, pyInt_eq_floor _ (by norm_num)]
    norm_num
  · rw [specRoundScaledHeight, hs, round_eq]
    norm_num

end BarcodeApp
